import Mathlib

/-!
Shallow embedding of the annotation hit-testing, click disambiguation,
hover handling and viewport synchronisation logic of
`OpenSeadragonViewer` (src/unnamed/part_001), together with a model of
the IIIF thumbnail resolver (whose source is absent from the excerpt;
it is modelled from the specification and pinned by its test suite).

Coordinates are modelled as rationals (`Rat`): the JavaScript source
computes with IEEE doubles, but every operation used here (addition,
subtraction, comparison) is exact on the inputs the claims quantify
over, so `Rat` is the faithful idealisation.
-/

attribute [local semireducible] Rat.sub Rat.add Rat.mul Rat.inv

/-- A point in world coordinates, as produced by `viewport.pointFromPixel`. -/
structure WPoint where
  x : Rat
  y : Rat
deriving DecidableEq, Repr

/-- One canvas of the canvas world: its id, intrinsic size and the
world offset of its top-left corner.  Modelled from the spec:
`CanvasWorld`'s per-canvas data (`id`, `width`, `height`,
`worldOffset`) — the `CanvasWorld` class itself is not part of the
excerpt, only its callers in `OpenSeadragonViewer`. -/
structure CanvasSpec where
  id : String
  width : Rat
  height : Rat
  offsetX : Rat
  offsetY : Rat
deriving DecidableEq, Repr

/-- A layer of the canvas world (compared only for equality by
`componentDidUpdate`). -/
structure Layer where
  id : String
  index : Nat
  opacity : Rat
deriving DecidableEq, Repr

/-- The canvas world: an ordered sequence of canvases plus the layer
list. Modelled from the spec: the `CanvasWorld` class is not in the
excerpt. -/
structure CanvasWorld where
  canvases : List CanvasSpec
  layers : List Layer
deriving DecidableEq, Repr

/-- Modelled from the spec: `canvasAtPoint(worldPoint) → canvas | null`
returns the canvas whose world-space bounds contain the point, or
nothing when the point lies outside all canvases. -/
def canvasAtPoint (world : CanvasWorld) (point : WPoint) : Option CanvasSpec :=
  world.canvases.find? (fun c =>
    decide (c.offsetX ≤ point.x ∧ point.x ≤ c.offsetX + c.width
      ∧ c.offsetY ≤ point.y ∧ point.y ≤ c.offsetY + c.height))

/-- Modelled from the spec: `canvasToWorldCoordinates(canvasId) → (x, y)`,
the world offset of the canvas with the given id (the caller in
`isAnnotationAtPoint` destructures only the first two components). -/
def canvasToWorldCoordinates (world : CanvasWorld) (canvasId : String) : Rat × Rat :=
  match world.canvases.find? (fun c => c.id == canvasId) with
  | some c => (c.offsetX, c.offsetY)
  | none => (0, 0)

/-- An annotation resource: target canvas id, own id, and at most one
of an SVG selector (kept as its list of path strings, as extracted by
`CanvasAnnotationDisplay.svgPaths`) and a fragment selector
`[x, y, w, h]`. -/
structure AnnoResource where
  id : String
  targetId : String
  svgSelector : Option (List String)
  fragmentSelector : Option (Rat × Rat × Rat × Rat)
deriving DecidableEq, Repr

/-- An annotation list (or search-result list): an id and its ordered
resources. -/
structure AnnoList where
  id : String
  resources : List AnnoResource
deriving DecidableEq, Repr

/-- The ambient point-in-path oracle for SVG selectors.  The source
delegates SVG containment to the canvas 2D API
(`context.isPointInPath(new Path2D(path), relativeX, relativeY)`),
which is external to the excerpt; it is modelled as an abstract
boolean function of the path string and the relative point. -/
structure SvgEnv where
  isPointInPath : String → Rat → Rat → Bool

/-- Embedding of `OpenSeadragonViewer.isAnnotationAtPoint`
(src/unnamed/part_001 lines 275–296): translate the point into
canvas-local coordinates by subtracting the canvas's world offset,
then test the SVG selector via the point-in-path oracle if present,
else the fragment selector with inclusive bounds, else return false. -/
def isAnnotationAtPoint (env : SvgEnv) (world : CanvasWorld)
    (resource : AnnoResource) (canvas : CanvasSpec) (point : WPoint) : Bool :=
  let coords := canvasToWorldCoordinates world canvas.id
  let relativeX := point.x - coords.1
  let relativeY := point.y - coords.2
  match resource.svgSelector with
  | some paths => paths.any (fun path => env.isPointInPath path relativeX relativeY)
  | none =>
    match resource.fragmentSelector with
    | some (x, y, w, h) =>
      decide (x ≤ relativeX ∧ relativeX ≤ x + w)
        && decide (y ≤ relativeY ∧ relativeY ≤ y + h)
    | none => false

/-- Embedding of `OpenSeadragonViewer.annotationsAtPoint`
(src/unnamed/part_001 lines 299–312): concatenate the annotation lists
and the search-annotation lists, flatten their resources, and keep the
resources that target the given canvas and contain the point. -/
def annotationsAtPoint (env : SvgEnv) (world : CanvasWorld)
    (annolists searchAnnolists : List AnnoList)
    (canvas : CanvasSpec) (point : WPoint) : List AnnoResource :=
  (((annolists ++ searchAnnolists).map (fun l => l.resources)).flatten).filter
    (fun resource =>
      if canvas.id != resource.targetId then false
      else isAnnotationAtPoint env world resource canvas point)

/-- The integer grid offsets `-r, ..., r` traversed by the scoring
loops in `onCanvasClick`. -/
def gridOffsets (r : Nat) : List Int :=
  (List.range (2 * r + 1)).map (fun i => (i : Int) - (r : Int))

/-- Embedding of the `annosWithClickScore(offset)` closure of
`OpenSeadragonViewer.onCanvasClick` (src/unnamed/part_001 lines
189–200): the number of integer grid offsets `(dx, dy)` with
`-r ≤ dx, dy ≤ r` such that the clicked point shifted by `(dx, dy)`
lies inside the resource's shape.  The JavaScript loops `xOffset`
outermost, accumulating over `yOffset`; the sum-of-counts below is the
same traversal. -/
def clickScore (env : SvgEnv) (world : CanvasWorld)
    (canvas : CanvasSpec) (point : WPoint) (r : Nat) (anno : AnnoResource) : Nat :=
  ((gridOffsets r).map (fun (dx : Int) =>
    (gridOffsets r).countP (fun (dy : Int) =>
      isAnnotationAtPoint env world anno canvas
        ⟨point.x + (dx : Rat), point.y + (dy : Rat)⟩))).sum

/-- Stable insertion of a scored candidate into an ascending list:
the element is placed before the first existing element whose score is
at least its own, matching lodash's stable ascending `sortBy`. -/
def insertByScore (a : AnnoResource × Nat) :
    List (AnnoResource × Nat) → List (AnnoResource × Nat)
  | [] => [a]
  | b :: bs => if a.2 ≤ b.2 then a :: b :: bs else b :: insertByScore a bs

/-- Stable ascending sort by score, the embedding of
`sortBy(..., 'score')` in `onCanvasClick`. -/
def sortByScore (l : List (AnnoResource × Nat)) : List (AnnoResource × Nat) :=
  l.foldr insertByScore []

/-- The multi-candidate branch of `onCanvasClick`
(src/unnamed/part_001 lines 202–218), over an arbitrary score
function: the candidates are sorted by ascending score at radius 50
(lodash `sortBy` — stable) and element 0 is selected when elements 0
and 1 carry different scores; otherwise the same test is repeated at
radius 150, and at radius 500 element 0 of the sort is selected
unconditionally. -/
def disambiguateMulti (score : Nat → AnnoResource → Nat)
    (annos : List AnnoResource) : Option AnnoResource :=
  match sortByScore (annos.map (fun anno => (anno, score 50 anno))) with
  | s0 :: s1 :: _ =>
    if s0.2 ≠ s1.2 then some s0.1
    else
      match sortByScore (annos.map (fun anno => (anno, score 150 anno))) with
      | t0 :: t1 :: _ =>
        if t0.2 ≠ t1.2 then some t0.1
        else
          match sortByScore (annos.map (fun anno => (anno, score 500 anno))) with
          | u0 :: _ => some u0.1
          | [] => none
      | _ => none
  | _ => none

/-- Embedding of the selection logic of
`OpenSeadragonViewer.onCanvasClick` (src/unnamed/part_001 lines
171–219), returning the resource handed to `toggleAnnotation` (or
nothing when no canvas or no annotation is hit).  A single hit is
selected directly; several hits go through the score-based
disambiguation. -/
def onCanvasClickSelected (env : SvgEnv) (world : CanvasWorld)
    (annolists searchAnnolists : List AnnoList) (point : WPoint) :
    Option AnnoResource :=
  match canvasAtPoint world point with
  | none => none
  | some canvas =>
    match annotationsAtPoint env world annolists searchAnnolists canvas point with
    | [] => none
    | [a] => some a
    | a :: b :: rest =>
      disambiguateMulti
        (fun r anno => clickScore env world canvas point r anno) (a :: b :: rest)

/-- Embedding of lodash `xor`: the distinct values occurring in exactly
one of the two arrays (only its emptiness, via `.length > 0`, is ever
consulted by the source). -/
def lodashXor (l1 l2 : List String) : List String :=
  ((l1.filter (fun a => decide (a ∉ l2))) ++ (l2.filter (fun a => decide (a ∉ l1)))).dedup

/-- Embedding of `OpenSeadragonViewer.onCanvasMouseMove`
(src/unnamed/part_001 lines 222–241), returning the hover notification
`(windowId, ids)` handed to the `hoverAnnotation` prop, or nothing when
no canvas contains the point or the id set is unchanged (lodash `xor`
with the previously hovered ids is empty). -/
def onCanvasMouseMove (env : SvgEnv) (world : CanvasWorld)
    (annolists searchAnnolists : List AnnoList)
    (hoveredAnnotationIds : List String) (windowId : String) (point : WPoint) :
    Option (String × List String) :=
  match canvasAtPoint world point with
  | none => none
  | some canvas =>
    let annos := annotationsAtPoint env world annolists searchAnnolists canvas point
    if (lodashXor hoveredAnnotationIds (annos.map (fun a => a.id))).length > 0
    then some (windowId, annos.map (fun a => a.id))
    else none

/-- The hovered-annotation id set after a mouse move: replaced by the
emitted id list when a hover notification fires, left unchanged
otherwise (the application state is only written through the
`hoverAnnotation` prop). -/
def hoveredIdsAfterMouseMove (env : SvgEnv) (world : CanvasWorld)
    (annolists searchAnnolists : List AnnoList)
    (hoveredAnnotationIds : List String) (windowId : String) (point : WPoint) :
    List String :=
  match onCanvasMouseMove env world annolists searchAnnolists
      hoveredAnnotationIds windowId point with
  | some p => p.2
  | none => hoveredAnnotationIds

/-- The viewport state `{x, y, zoom}` owned by the application
(`viewer` prop / redux). -/
structure ViewerState where
  x : Rat
  y : Rat
  zoom : Rat
deriving DecidableEq, Repr

/-- The external viewer's spring targets
(`viewport.centerSpringX.target.value`, `centerSpringY.target.value`,
`zoomSpring.target.value`). -/
structure ViewportSprings where
  centerSpringX : Rat
  centerSpringY : Rat
  zoomSpring : Rat
deriving DecidableEq, Repr

/-- JavaScript `Math.round`: round half towards positive infinity. -/
def mathRound (q : Rat) : Int :=
  Rat.floor (q + 1 / 2)

/-- Embedding of `OpenSeadragonViewer.onViewportChange`
(src/unnamed/part_001 lines 253–263): the `updateViewport` action
forwarded to application state, with `x` and `y` the rounded center
spring targets and `zoom` the raw zoom spring target. -/
def onViewportChange (windowId : String) (viewport : ViewportSprings) :
    String × ViewerState :=
  (windowId,
   { x := (mathRound viewport.centerSpringX : Rat),
     y := (mathRound viewport.centerSpringY : Rat),
     zoom := viewport.zoomSpring })

/-- The external viewer events touching the `osdUpdating` flag or the
viewport handlers (src/unnamed/part_001 lines 78–89). -/
inductive OSDEvent where
  | animationStart
  | animationFinish
  | updateViewport
  | canvasClick
  | canvasMouseMove
deriving DecidableEq, Repr

/-- One step of the `osdUpdating` flag: set on `animation-start`,
cleared on `animation-finish`, untouched by every other event
(src/unnamed/part_001 lines 79–86). -/
def osdUpdatingStep (b : Bool) : OSDEvent → Bool
  | OSDEvent.animationStart => true
  | OSDEvent.animationFinish => false
  | _ => b

/-- The `osdUpdating` flag after a sequence of viewer events, starting
from its initial `false` (constructor, src/unnamed/part_001 line 60). -/
def osdUpdatingAfter (events : List OSDEvent) : Bool :=
  events.foldl osdUpdatingStep false

/-- The `@id` payload of an image info document (only its `@id` is
consulted by `infoResponsesMatch`). -/
structure InfoJson where
  atId : Option String
deriving DecidableEq, Repr

/-- An info response: its id and the (possibly absent) parsed info
document. -/
structure InfoResponse where
  id : String
  json : Option InfoJson
deriving DecidableEq, Repr

/-- A non-tiled image prop (only its id is consulted). -/
structure NonTiledImage where
  id : String
deriving DecidableEq, Repr

/-- Embedding of the static `OpenSeadragonViewer.annotationsMatch`
(src/unnamed/part_001 lines 28–42): equal-length lists whose entries
pairwise have equal ids and equal resource-id lists (empty resource
lists match regardless of the entry ids). -/
def annotationsMatch (currentAnnotations prevAnnotations : List AnnoList) : Bool :=
  if currentAnnotations.length == 0 && prevAnnotations.length == 0 then true
  else if currentAnnotations.length != prevAnnotations.length then false
  else (currentAnnotations.zip prevAnnotations).all (fun p =>
    let newIds := p.1.resources.map (fun r => r.id)
    let prevIds := p.2.resources.map (fun r => r.id)
    if newIds.length == 0 && prevIds.length == 0 then true
    else if newIds.length != prevIds.length then false
    else p.1.id == p.2.id && newIds == prevIds)

/-- Embedding of `OpenSeadragonViewer.infoResponsesMatch`
(src/unnamed/part_001 lines 451–471); note the source uses `some`, so
a single index with matching `@id` suffices. -/
def infoResponsesMatch (infoResponses prevInfoResponses : List InfoResponse) : Bool :=
  if infoResponses.length == 0 && prevInfoResponses.length == 0 then true
  else if infoResponses.length != prevInfoResponses.length then false
  else (infoResponses.zip prevInfoResponses).any (fun p =>
    match p.1.json with
    | none => false
    | some j => j.atId == p.2.json.bind (fun pj => pj.atId))

/-- Embedding of `OpenSeadragonViewer.nonTiledImagedMatch`
(src/unnamed/part_001 lines 477–490); again a single matching index
suffices, and there is no length guard beyond the both-empty case. -/
def nonTiledImagedMatch (nonTiledImages prevNonTiledImages : List NonTiledImage) : Bool :=
  if nonTiledImages.length == 0 && prevNonTiledImages.length == 0 then true
  else (nonTiledImages.zip prevNonTiledImages).any (fun p => p.1.id == p.2.id)

/-- The canvas ids of the world, in order (`canvasWorld.canvasIds`). -/
def CanvasWorld.canvasIds (world : CanvasWorld) : List String :=
  world.canvases.map (fun c => c.id)

/-- The imperative commands `componentDidUpdate` can issue against the
external viewer. -/
inductive OSDCommand where
  | forceRedraw
  | close
  | addAllImageSources (zoomAfterAdd : Bool)
  | refreshTileProperties
  | panTo (x y : Rat) (immediately : Bool)
  | zoomTo (zoom : Rat) (x y : Rat) (immediately : Bool)
deriving DecidableEq, Repr

/-- The props of `OpenSeadragonViewer` consulted by
`componentDidUpdate`. -/
structure ViewerProps where
  viewer : Option ViewerState
  canvasWorld : CanvasWorld
  annotations : List AnnoList
  searchAnnotations : List AnnoList
  drawAnnotations : Bool
  drawSearchAnnotations : Bool
  hoveredAnnotationIds : List String
  selectedAnnotationId : Option String
  infoResponses : List InfoResponse
  nonTiledImages : List NonTiledImage
deriving Repr

/-- Embedding of `OpenSeadragonViewer.componentDidUpdate`
(src/unnamed/part_001 lines 106–162) as the list of commands issued to
the external viewer: a forced redraw when annotation-related props
changed, then either a close-and-re-add when the image sources
changed, a tile-property refresh when only the layers changed, or —
only when a `viewer` prop is present and `osdUpdating` is unset — a
pan and/or zoom reconciling the external viewer with the prop. -/
def componentDidUpdate (props prevProps : ViewerProps) (osdUpdating : Bool)
    (viewport : ViewportSprings) : List OSDCommand :=
  let annotationsUpdated := !(annotationsMatch props.annotations prevProps.annotations)
  let searchAnnotationsUpdated :=
    !(annotationsMatch props.searchAnnotations prevProps.searchAnnotations)
  let hoveredAnnotationsUpdated :=
    (lodashXor props.hoveredAnnotationIds prevProps.hoveredAnnotationIds).length > 0
  let selectedAnnotationsUpdated :=
    props.selectedAnnotationId != prevProps.selectedAnnotationId
  let redrawAnnotations := (props.drawAnnotations != prevProps.drawAnnotations)
    || (props.drawSearchAnnotations != prevProps.drawSearchAnnotations)
  let redrawCommands :=
    if searchAnnotationsUpdated || annotationsUpdated || selectedAnnotationsUpdated
        || hoveredAnnotationsUpdated || redrawAnnotations
    then [OSDCommand.forceRedraw] else []
  redrawCommands ++
    (if !(infoResponsesMatch props.infoResponses prevProps.infoResponses)
        || !(nonTiledImagedMatch props.nonTiledImages prevProps.nonTiledImages) then
      let canvasesChanged :=
        !(props.canvasWorld.canvasIds == prevProps.canvasWorld.canvasIds)
      [OSDCommand.close, OSDCommand.addAllImageSources (canvasesChanged || props.viewer.isNone)]
    else if !(props.canvasWorld.layers == prevProps.canvasWorld.layers) then
      [OSDCommand.refreshTileProperties]
    else
      match props.viewer with
      | some v =>
        if !osdUpdating then
          (if (v.x != viewport.centerSpringX) || (v.y != viewport.centerSpringY)
           then [OSDCommand.panTo v.x v.y false] else [])
            ++ (if v.zoom != viewport.zoomSpring
                then [OSDCommand.zoomTo v.zoom v.x v.y false] else [])
        else []
      | none => [])

/-- A IIIF Image API service: base identifier and conformance level
(0, 1 or 2, from the `profile`). -/
structure IIIFService where
  id : String
  level : Nat
deriving DecidableEq, Repr

/-- An image resource leaf: its own id, declared dimensions when
present, and an optional IIIF Image API service. -/
structure IIIFImage where
  id : String
  width : Option Nat
  height : Option Nat
  service : Option IIIFService
deriving DecidableEq, Repr

/-- A thumbnail size-constraint request (`iiifOpts`). -/
structure ThumbConstraints where
  maxWidth : Option Nat
  maxHeight : Option Nat
deriving DecidableEq, Repr

/-- A resolved thumbnail: URL plus resolved dimensions when known. -/
structure ThumbResult where
  url : String
  width : Option Int
  height : Option Int
deriving DecidableEq, Repr

/-- Modelled from the spec: best-fit-inside scaling — the original
dimensions scaled by `min(boundWidth/width, boundHeight/height)` and
rounded, preserving aspect ratio. -/
def bestFitDims (origWidth origHeight boundWidth boundHeight : Nat) : Int × Int :=
  let scale : Rat :=
    min ((boundWidth : Rat) / (origWidth : Rat)) ((boundHeight : Rat) / (origHeight : Rat))
  (mathRound (scale * (origWidth : Rat)), mathRound (scale * (origHeight : Rat)))

/-- Modelled from the spec: the IIIF size parameter and resolved
dimensions for a level-1/2 service before the minimum-size floor —
only `maxWidth` gives `"w,"`, only `maxHeight` gives `",h"`, both give
the best-fit form `"!w,h"`, and no constraints give the bounded
default `",120"`. -/
def iiifSizeAndDims (origWidth origHeight : Nat) (c : ThumbConstraints) :
    String × Int × Int :=
  match c.maxWidth, c.maxHeight with
  | some mw, none =>
    (toString mw ++ ",",
     ((mw : Int), mathRound ((mw : Rat) * (origHeight : Rat) / (origWidth : Rat))))
  | none, some mh =>
    ("," ++ toString mh,
     (mathRound ((mh : Rat) * (origWidth : Rat) / (origHeight : Rat)), (mh : Int)))
  | some mw, some mh =>
    ("!" ++ toString mw ++ "," ++ toString mh, bestFitDims origWidth origHeight mw mh)
  | none, none =>
    (",120",
     (mathRound ((120 : Rat) * (origWidth : Rat) / (origHeight : Rat)), (120 : Int)))

/-- Modelled from the spec: the minimum-size floor — when the computed
target width and height are both below 120 units, the request is
clamped up to the floor through the best-fit-inside form `"!120,120"`
and the dimensions re-resolved against that box. -/
def iiifNegotiatedSize (origWidth origHeight : Nat) (c : ThumbConstraints) :
    String × Int × Int :=
  let base := iiifSizeAndDims origWidth origHeight c
  if base.2.1 < 120 ∧ base.2.2 < 120 then
    ("!120,120", bestFitDims origWidth origHeight 120 120)
  else base

/-- Modelled from the spec: thumbnail resolution at an image leaf
(`ThumbnailFactory`; its source is not in the excerpt, only its test
suite).  A plain static image returns its declared url and dimensions
unchanged; a level-0 service ignores the constraints and — as fixed by
the repository's tests, which return `arbitrary-url`/`xyz` (the image
resource's own id) rather than the service's base identifier — yields
the image id with no resolved dimensions; a level-1/2 service builds
`serviceId + "/full/" + size + "/0/default.jpg"` from the negotiated
size.  When a service is present but the original dimensions are not
declared, the bounded default size is requested with no resolved
dimensions. -/
def getThumbnailImage (img : IIIFImage) (c : ThumbConstraints) : ThumbResult :=
  match img.service with
  | none =>
    { url := img.id,
      width := img.width.map (fun n => (n : Int)),
      height := img.height.map (fun n => (n : Int)) }
  | some s =>
    if s.level == 0 then { url := img.id, width := none, height := none }
    else
      match img.width, img.height with
      | some w, some h =>
        let neg := iiifNegotiatedSize w h c
        { url := s.id ++ "/full/" ++ neg.1 ++ "/0/default.jpg",
          width := some neg.2.1, height := some neg.2.2 }
      | _, _ =>
        { url := s.id ++ "/full/,120/0/default.jpg", width := none, height := none }

/-- A node of the polymorphic IIIF resource graph, as far as the
claims exercise it.  Modelled from the spec: a resource exposing a
`thumbnail` recurses on it; a canvas falls back to its first
qualifying image; a node with nothing resolvable yields no thumbnail. -/
inductive IIIFNode where
  | image (img : IIIFImage)
  | withThumbnail (id : String) (thumbnail : IIIFNode)
  | canvasNode (id : String) (images : List IIIFImage)
  | emptyNode (id : String)
deriving DecidableEq, Repr

/-- Modelled from the spec: `getThumbnail(resource, iiifOpts)` —
recurse through `thumbnail` properties to a representative image leaf
and negotiate there; an unresolvable graph gives an empty result
rather than an error. -/
def getThumbnail : IIIFNode → ThumbConstraints → Option ThumbResult
  | IIIFNode.image img, c => some (getThumbnailImage img c)
  | IIIFNode.withThumbnail _ thumbnail, c => getThumbnail thumbnail c
  | IIIFNode.canvasNode _ images, c =>
    match images with
    | img :: _ => some (getThumbnailImage img c)
    | [] => none
  | IIIFNode.emptyNode _, _ => none

/-! Helper lemmas about the embedded operations. -/

theorem sum_map_countP_mul (l1 l2 : List Int) (p q : Int → Bool) :
    ((l1.map (fun a => l2.countP (fun b => p a && q b))).sum)
      = l1.countP p * l2.countP q := by
  induction l1 with
  | nil => simp
  | cons a l ih =>
    cases hpa : p a with
    | true =>
      simp only [List.map_cons, List.sum_cons, ih, List.countP_cons, hpa,
        Bool.true_and, if_pos]
      ring
    | false =>
      simp [List.countP_cons, hpa, ih]

theorem clickScore_fragment (env : SvgEnv) (world : CanvasWorld)
    (canvas : CanvasSpec) (point : WPoint) (r : Nat) (anno : AnnoResource)
    (x y w h : Rat) (hsvg : anno.svgSelector = none)
    (hfrag : anno.fragmentSelector = some (x, y, w, h)) :
    clickScore env world canvas point r anno
      = ((gridOffsets r).countP (fun (dx : Int) =>
          decide (x ≤ point.x + (dx : Rat) - (canvasToWorldCoordinates world canvas.id).1
            ∧ point.x + (dx : Rat) - (canvasToWorldCoordinates world canvas.id).1 ≤ x + w)))
        * ((gridOffsets r).countP (fun (dy : Int) =>
          decide (y ≤ point.y + (dy : Rat) - (canvasToWorldCoordinates world canvas.id).2
            ∧ point.y + (dy : Rat) - (canvasToWorldCoordinates world canvas.id).2 ≤ y + h))) := by
  rw [← sum_map_countP_mul]
  unfold clickScore
  congr 1
  refine List.map_congr_left (fun dx hdx => ?_)
  refine List.countP_congr (fun dy hdy => ?_)
  simp [isAnnotationAtPoint, hsvg, hfrag]

theorem sortByScore_cons (a : AnnoResource × Nat) (l : List (AnnoResource × Nat)) :
    sortByScore (a :: l) = insertByScore a (sortByScore l) := rfl

theorem insertByScore_length (a : AnnoResource × Nat) (l : List (AnnoResource × Nat)) :
    (insertByScore a l).length = l.length + 1 := by
  induction l with
  | nil => rfl
  | cons b bs ih =>
    simp only [insertByScore]
    split
    · simp
    · simp [ih]

theorem sortByScore_length (l : List (AnnoResource × Nat)) :
    (sortByScore l).length = l.length := by
  induction l with
  | nil => rfl
  | cons a l ih => simp [sortByScore, List.foldr_cons, insertByScore_length, ← ih]

theorem mem_insertByScore (x a : AnnoResource × Nat) (l : List (AnnoResource × Nat)) :
    x ∈ insertByScore a l ↔ x = a ∨ x ∈ l := by
  induction l with
  | nil => simp [insertByScore]
  | cons b bs ih =>
    simp only [insertByScore]
    split
    · simp
    · simp [ih]
      tauto

theorem mem_sortByScore (x : AnnoResource × Nat) (l : List (AnnoResource × Nat)) :
    x ∈ sortByScore l ↔ x ∈ l := by
  induction l with
  | nil => simp [sortByScore]
  | cons a l ih =>
    simp only [sortByScore, List.foldr_cons] at *
    rw [mem_insertByScore]
    simp [ih]

theorem sortByScore_eq_nil (l : List (AnnoResource × Nat)) (h : sortByScore l = []) :
    l = [] := by
  have := sortByScore_length l
  rw [h] at this
  exact List.length_eq_zero.mp this.symm

theorem sortByScore_head_le (l : List (AnnoResource × Nat))
    (x : AnnoResource × Nat) (xs : List (AnnoResource × Nat))
    (hsort : sortByScore l = x :: xs) :
    ∀ y ∈ l, x.2 ≤ y.2 := by
  induction l generalizing x xs with
  | nil => simp [sortByScore] at hsort
  | cons a l ih =>
    rw [sortByScore_cons] at hsort
    rcases hz : sortByScore l with _ | ⟨z, zs⟩
    · have hl : l = [] := sortByScore_eq_nil l hz
      rw [hz] at hsort
      simp only [insertByScore] at hsort
      injection hsort with h1 h2
      subst h1
      intro y hy
      rcases List.mem_cons.mp hy with h3 | h3
      · subst h3
        exact le_refl _
      · simp [hl] at h3
    · rw [hz] at hsort
      simp only [insertByScore] at hsort
      by_cases hle : a.2 ≤ z.2
      · rw [if_pos hle] at hsort
        injection hsort with h1 h2
        subst h1
        intro y hy
        rcases List.mem_cons.mp hy with h3 | h3
        · subst h3
          exact le_refl _
        · exact le_trans hle (ih z zs hz y h3)
      · rw [if_neg hle] at hsort
        injection hsort with h1 h2
        subst h1
        intro y hy
        rcases List.mem_cons.mp hy with h3 | h3
        · subst h3
          exact le_of_not_le hle
        · exact ih z zs hz y h3

theorem sortByScore_of_const (l : List (AnnoResource × Nat))
    (hconst : ∀ p ∈ l, ∀ q ∈ l, p.2 = q.2) :
    sortByScore l = l := by
  induction l with
  | nil => rfl
  | cons a l ih =>
    rw [sortByScore_cons]
    have hl : sortByScore l = l :=
      ih (fun p hp q hq => hconst p (List.mem_cons_of_mem a hp) q (List.mem_cons_of_mem a hq))
    rw [hl]
    cases l with
    | nil => rfl
    | cons b bs =>
      simp only [insertByScore]
      rw [if_pos]
      exact le_of_eq (hconst a (List.mem_cons_self a _) b
        (List.mem_cons_of_mem a (List.mem_cons_self b bs)))

theorem sortByScore_map_head (score : AnnoResource → Nat) (annos : List AnnoResource)
    (s0 : AnnoResource × Nat) (rest : List (AnnoResource × Nat))
    (hsort : sortByScore (annos.map (fun a => (a, score a))) = s0 :: rest) :
    s0.1 ∈ annos ∧ s0.2 = score s0.1 ∧ ∀ b ∈ annos, score s0.1 ≤ score b := by
  have hmem : s0 ∈ annos.map (fun a => (a, score a)) := by
    rw [← mem_sortByScore, hsort]
    exact List.mem_cons_self _ _
  rcases List.mem_map.mp hmem with ⟨a0, ha0, heq⟩
  have hmin := sortByScore_head_le _ s0 rest hsort
  subst heq
  refine ⟨ha0, rfl, fun b hb => ?_⟩
  exact hmin (b, score b) (List.mem_map.mpr ⟨b, hb, rfl⟩)

theorem disambiguateMulti_min (score : Nat → AnnoResource → Nat)
    (annos : List AnnoResource) (hlen : 2 ≤ annos.length) :
    ∃ a, disambiguateMulti score annos = some a ∧ a ∈ annos ∧
      ∃ r, (r = 50 ∨ r = 150 ∨ r = 500) ∧
        ∀ b ∈ annos, score r a ≤ score r b := by
  have hlen50 : 2 ≤ (sortByScore (annos.map (fun a => (a, score 50 a)))).length := by
    rw [sortByScore_length, List.length_map]
    exact hlen
  rcases h50 : sortByScore (annos.map (fun a => (a, score 50 a))) with _ | ⟨s0, _ | ⟨s1, t⟩⟩
  · rw [h50] at hlen50
    simp at hlen50
  · rw [h50] at hlen50
    simp at hlen50
  · rcases sortByScore_map_head _ annos s0 _ h50 with ⟨hm0, he0, hmin0⟩
    by_cases hne : s0.2 ≠ s1.2
    · refine ⟨s0.1, ?_, hm0, 50, Or.inl rfl, ?_⟩
      · unfold disambiguateMulti
        rw [h50]
        simp [hne]
      · intro b hb
        exact hmin0 b hb
    · have hlen150 : 2 ≤ (sortByScore (annos.map (fun a => (a, score 150 a)))).length := by
        rw [sortByScore_length, List.length_map]
        exact hlen
      rcases h150 : sortByScore (annos.map (fun a => (a, score 150 a))) with _ | ⟨t0, _ | ⟨t1, u⟩⟩
      · rw [h150] at hlen150
        simp at hlen150
      · rw [h150] at hlen150
        simp at hlen150
      · rcases sortByScore_map_head _ annos t0 _ h150 with ⟨hm1, he1, hmin1⟩
        by_cases hne1 : t0.2 ≠ t1.2
        · refine ⟨t0.1, ?_, hm1, 150, Or.inr (Or.inl rfl), ?_⟩
          · unfold disambiguateMulti
            rw [h50, h150]
            simp [hne, hne1]
          · intro b hb
            exact hmin1 b hb
        · have hlen500 : 1 ≤ (sortByScore (annos.map (fun a => (a, score 500 a)))).length := by
            rw [sortByScore_length, List.length_map]
            omega
          rcases h500 : sortByScore (annos.map (fun a => (a, score 500 a))) with _ | ⟨u0, v⟩
          · rw [h500] at hlen500
            simp at hlen500
          · rcases sortByScore_map_head _ annos u0 _ h500 with ⟨hm2, he2, hmin2⟩
            refine ⟨u0.1, ?_, hm2, 500, Or.inr (Or.inr rfl), ?_⟩
            · unfold disambiguateMulti
              rw [h50, h150, h500]
              simp [hne, hne1]
            · intro b hb
              exact hmin2 b hb

theorem disambiguateMulti_const (score : Nat → AnnoResource → Nat)
    (a b : AnnoResource) (rest : List AnnoResource)
    (hconst : ∀ r, (r = 50 ∨ r = 150 ∨ r = 500) →
      ∀ p ∈ a :: b :: rest, ∀ q ∈ a :: b :: rest, score r p = score r q) :
    disambiguateMulti score (a :: b :: rest) = some a := by
  have hsort : ∀ r, (r = 50 ∨ r = 150 ∨ r = 500) →
      sortByScore ((a :: b :: rest).map (fun anno => (anno, score r anno)))
        = (a :: b :: rest).map (fun anno => (anno, score r anno)) := by
    intro r hr
    apply sortByScore_of_const
    intro p hp q hq
    rcases List.mem_map.mp hp with ⟨p0, hp0, hpe⟩
    rcases List.mem_map.mp hq with ⟨q0, hq0, hqe⟩
    subst hpe
    subst hqe
    exact hconst r hr p0 hp0 q0 hq0
  have hab : score 50 a = score 50 b :=
    hconst 50 (Or.inl rfl) a (List.mem_cons_self _ _)
      b (List.mem_cons_of_mem a (List.mem_cons_self _ _))
  have hab150 : score 150 a = score 150 b :=
    hconst 150 (Or.inr (Or.inl rfl)) a (List.mem_cons_self _ _)
      b (List.mem_cons_of_mem a (List.mem_cons_self _ _))
  unfold disambiguateMulti
  rw [hsort 50 (Or.inl rfl), hsort 150 (Or.inr (Or.inl rfl)),
    hsort 500 (Or.inr (Or.inr rfl))]
  simp [hab, hab150]

theorem lodashXor_eq_nil_iff (l1 l2 : List String) :
    lodashXor l1 l2 = [] ↔ (∀ a, a ∈ l1 ↔ a ∈ l2) := by
  unfold lodashXor
  rw [List.dedup_eq_nil, List.append_eq_nil, List.filter_eq_nil_iff, List.filter_eq_nil_iff]
  constructor
  · rintro ⟨h1, h2⟩ a
    constructor
    · intro ha
      by_contra hb
      exact h1 a ha (by simp [hb])
    · intro ha
      by_contra hb
      exact h2 a ha (by simp [hb])
  · intro h
    constructor
    · intro a ha
      simp [(h a).mp ha]
    · intro a ha
      simp [(h a).mpr ha]

theorem lodashXor_self (l : List String) : lodashXor l l = [] :=
  (lodashXor_eq_nil_iff l l).mpr (fun _ => Iff.rfl)

theorem mathRound_near (q : Rat) : |((mathRound q : Int) : Rat) - q| ≤ 1 / 2 := by
  unfold mathRound
  have h1 : ((Rat.floor (q + 1 / 2) : Int) : Rat) ≤ q + 1 / 2 := Rat.le_floor.mp (le_refl _)
  have h2 : ¬ (((Rat.floor (q + 1 / 2) + 1 : Int) : Rat) ≤ q + 1 / 2) := by
    intro hc
    have := Rat.le_floor.mpr hc
    omega
  rw [abs_le]
  push_cast at h1 h2 ⊢
  constructor <;> linarith

/-! Concrete fixtures used by the counterexamples and witnesses. -/

/-- An SVG oracle that never reports containment (no SVG selectors are
exercised by the concrete fixtures). -/
def exEnv : SvgEnv := ⟨fun _ _ _ => false⟩

/-- A single 1000×1000 canvas at the world origin. -/
def exCanvas : CanvasSpec := ⟨"c", 1000, 1000, 0, 0⟩

/-- The world holding just `exCanvas`. -/
def exWorld : CanvasWorld := { canvases := [exCanvas], layers := [] }

/-- A small 2×2 rectangle annotation around the click point. -/
def exAnnoSmall : AnnoResource := ⟨"A", "c", none, some (9, 9, 2, 2)⟩

/-- A large rectangle annotation covering the whole canvas. -/
def exAnnoLarge : AnnoResource := ⟨"B", "c", none, some (0, 0, 1000, 1000)⟩

/-- One annotation list holding the small and the large rectangle. -/
def exLists : List AnnoList := [⟨"l", [exAnnoSmall, exAnnoLarge]⟩]

/-- The click point, inside both fixtures. -/
def exPoint : WPoint := ⟨10, 10⟩

/-- Twin annotation 1: a 20×20 rectangle at the origin. -/
def exAnnoTwinA : AnnoResource := ⟨"A", "c", none, some (0, 0, 20, 20)⟩

/-- Twin annotation 2: the same rectangle under a different id. -/
def exAnnoTwinB : AnnoResource := ⟨"B", "c", none, some (0, 0, 20, 20)⟩

/-- One annotation list holding the identical twin rectangles. -/
def exTwinLists : List AnnoList := [⟨"l", [exAnnoTwinA, exAnnoTwinB]⟩]

/-- A minimal props record (no viewer, empty world and lists). -/
def exProps : ViewerProps :=
  { viewer := none, canvasWorld := ⟨[], []⟩, annotations := [], searchAnnotations := [],
    drawAnnotations := true, drawSearchAnnotations := true, hoveredAnnotationIds := [],
    selectedAnnotationId := none, infoResponses := [], nonTiledImages := [] }

/-- The image resource of the test fixture carrying a level-0 IIIF
service whose base identifier differs from the resource id. -/
def exThumbLevel0 : IIIFImage := ⟨"arbitrary-url", none, none, some ⟨"http://example.com", 0⟩⟩

/-- The image resource of the test fixture carrying a level-2 IIIF
service on a 1000×2000 original. -/
def exThumbLevel2 : IIIFImage := ⟨"arbitrary-url", some 1000, some 2000, some ⟨"http://example.com", 2⟩⟩

/-- Whether a command is a `panTo`/`zoomTo` viewport reconciliation. -/
def isViewportReconcileCommand : OSDCommand → Bool
  | OSDCommand.panTo _ _ _ => true
  | OSDCommand.zoomTo _ _ _ _ => true
  | _ => false

/-! Claim theorems. -/

/-- C2: for every resource of the annotation or search-annotation
lists carrying a fragment (rectangle) selector `[x, y, w, h]` and no
SVG selector, and targeting the given canvas, `annotationsAtPoint`
returns it if and only if `x ≤ px ≤ x + w` and `y ≤ py ≤ y + h`, where
`(px, py)` is the point minus the canvas's world offset; bounds are
inclusive. -/
theorem hitTest_rect_iff (env : SvgEnv) (world : CanvasWorld)
    (annolists searchAnnolists : List AnnoList) (canvas : CanvasSpec)
    (point : WPoint) (res : AnnoResource) (x y w h : Rat)
    (hres : res ∈ ((annolists ++ searchAnnolists).map (fun l => l.resources)).flatten)
    (htarget : res.targetId = canvas.id)
    (hsvg : res.svgSelector = none)
    (hfrag : res.fragmentSelector = some (x, y, w, h)) :
    res ∈ annotationsAtPoint env world annolists searchAnnolists canvas point
      ↔ (x ≤ point.x - (canvasToWorldCoordinates world canvas.id).1
          ∧ point.x - (canvasToWorldCoordinates world canvas.id).1 ≤ x + w
          ∧ y ≤ point.y - (canvasToWorldCoordinates world canvas.id).2
          ∧ point.y - (canvasToWorldCoordinates world canvas.id).2 ≤ y + h) := by
  unfold annotationsAtPoint
  rw [List.mem_filter]
  simp only [hres, true_and]
  rw [htarget]
  simp [isAnnotationAtPoint, hsvg, hfrag, and_assoc]

/-- C2 witness: the small fixture rectangle is returned at the click
point (10, 10), whose canvas-local coordinates satisfy the inclusive
bounds. -/
theorem hitTest_rect_iff_witness :
    exAnnoSmall ∈ annotationsAtPoint exEnv exWorld exLists [] exCanvas exPoint
      ↔ ((9 : Rat) ≤ exPoint.x - (canvasToWorldCoordinates exWorld exCanvas.id).1
          ∧ exPoint.x - (canvasToWorldCoordinates exWorld exCanvas.id).1 ≤ 9 + 2
          ∧ (9 : Rat) ≤ exPoint.y - (canvasToWorldCoordinates exWorld exCanvas.id).2
          ∧ exPoint.y - (canvasToWorldCoordinates exWorld exCanvas.id).2 ≤ 9 + 2) :=
  hitTest_rect_iff exEnv exWorld exLists [] exCanvas exPoint exAnnoSmall 9 9 2 2
    (by decide) (by decide) (by decide) (by decide)

/-- C8: on animation finish, the `updateViewport` payload carries the
center spring targets rounded (JavaScript `Math.round`) — each within
half a world unit of the exact value — while the zoom spring target is
forwarded at full precision. -/
theorem viewportChange_rounding (windowId : String) (vp : ViewportSprings) :
    (onViewportChange windowId vp).2.x = ((mathRound vp.centerSpringX : Int) : Rat)
      ∧ (onViewportChange windowId vp).2.y = ((mathRound vp.centerSpringY : Int) : Rat)
      ∧ |(onViewportChange windowId vp).2.x - vp.centerSpringX| ≤ 1 / 2
      ∧ |(onViewportChange windowId vp).2.y - vp.centerSpringY| ≤ 1 / 2
      ∧ (onViewportChange windowId vp).2.zoom = vp.zoomSpring :=
  ⟨rfl, rfl, mathRound_near vp.centerSpringX, mathRound_near vp.centerSpringY, rfl⟩

/-- C9: a resource with neither an SVG nor a fragment selector is
contained at no point, and never appears in a hit-test result. -/
theorem malformedSelector_never_hit (env : SvgEnv) (world : CanvasWorld)
    (annolists searchAnnolists : List AnnoList) (canvas : CanvasSpec)
    (point : WPoint) (res : AnnoResource)
    (hsvg : res.svgSelector = none) (hfrag : res.fragmentSelector = none) :
    isAnnotationAtPoint env world res canvas point = false
      ∧ res ∉ annotationsAtPoint env world annolists searchAnnolists canvas point := by
  have h1 : isAnnotationAtPoint env world res canvas point = false := by
    simp [isAnnotationAtPoint, hsvg, hfrag]
  refine ⟨h1, fun hmem => ?_⟩
  have h2 := (List.mem_filter.mp hmem).2
  by_cases ht : canvas.id != res.targetId
  · simp [ht] at h2
  · simp [ht, h1] at h2

/-- C9 witness: a selectorless resource is rejected at the concrete
click point and absent from the concrete hit-test result. -/
theorem malformedSelector_never_hit_witness :
    isAnnotationAtPoint exEnv exWorld ⟨"M", "c", none, none⟩ exCanvas exPoint = false
      ∧ ⟨"M", "c", none, none⟩ ∉ annotationsAtPoint exEnv exWorld exLists [] exCanvas exPoint :=
  malformedSelector_never_hit exEnv exWorld exLists [] exCanvas exPoint
    ⟨"M", "c", none, none⟩ rfl rfl

/-- C10: a mouse move at a point outside every canvas emits no hover
notification and leaves the hovered id set unchanged. -/
theorem mouseMove_outside_canvases (env : SvgEnv) (world : CanvasWorld)
    (annolists searchAnnolists : List AnnoList) (hovered : List String)
    (windowId : String) (point : WPoint)
    (h : canvasAtPoint world point = none) :
    onCanvasMouseMove env world annolists searchAnnolists hovered windowId point = none
      ∧ hoveredIdsAfterMouseMove env world annolists searchAnnolists hovered windowId point
        = hovered := by
  have h1 : onCanvasMouseMove env world annolists searchAnnolists hovered windowId point
      = none := by
    unfold onCanvasMouseMove
    rw [h]
  refine ⟨h1, ?_⟩
  unfold hoveredIdsAfterMouseMove
  rw [h1]

/-- C10 witness: at the point (-5, -5), outside the only canvas, the
non-empty hovered set is preserved. -/
theorem mouseMove_outside_canvases_witness :
    onCanvasMouseMove exEnv exWorld exLists [] ["A"] "w" ⟨-5, -5⟩ = none
      ∧ hoveredIdsAfterMouseMove exEnv exWorld exLists [] ["A"] "w" ⟨-5, -5⟩ = ["A"] :=
  mouseMove_outside_canvases exEnv exWorld exLists [] ["A"] "w" ⟨-5, -5⟩ (by decide)

/-- C5: a mouse move over a canvas emits a hover notification exactly
when the id set of the annotations at the point differs, as a set,
from the previously hovered ids; and the immediately repeated mouse
move (with the hovered set updated by the first) emits nothing. -/
theorem hover_emitted_iff_changed (env : SvgEnv) (world : CanvasWorld)
    (annolists searchAnnolists : List AnnoList) (hovered : List String)
    (windowId : String) (point : WPoint) (canvas : CanvasSpec)
    (hcanvas : canvasAtPoint world point = some canvas) :
    ((onCanvasMouseMove env world annolists searchAnnolists hovered windowId point).isSome
        = true
      ↔ ¬ (∀ a, a ∈ hovered ↔
            a ∈ (annotationsAtPoint env world annolists searchAnnolists canvas point).map
              (fun an => an.id)))
    ∧ onCanvasMouseMove env world annolists searchAnnolists
        (hoveredIdsAfterMouseMove env world annolists searchAnnolists hovered windowId point)
        windowId point = none := by
  have hunfold : onCanvasMouseMove env world annolists searchAnnolists hovered windowId point
      = (if (lodashXor hovered
            ((annotationsAtPoint env world annolists searchAnnolists canvas point).map
              (fun a => a.id))).length > 0
        then some (windowId,
          (annotationsAtPoint env world annolists searchAnnolists canvas point).map
            (fun a => a.id))
        else none) := by
    unfold onCanvasMouseMove
    rw [hcanvas]
  constructor
  · rw [hunfold]
    by_cases hxor : lodashXor hovered
        ((annotationsAtPoint env world annolists searchAnnolists canvas point).map
          (fun a => a.id)) = []
    · rw [if_neg (by simp [hxor])]
      simp only [Option.isSome_none]
      constructor
      · intro hfalse
        exact absurd hfalse (by simp)
      · intro hcontra
        exact absurd ((lodashXor_eq_nil_iff _ _).mp hxor) hcontra
    · rw [if_pos (List.length_pos.mpr hxor)]
      simp only [Option.isSome_some, true_iff]
      intro hall
      exact hxor ((lodashXor_eq_nil_iff _ _).mpr hall)
  · have hunfold2 : ∀ hov : List String,
        onCanvasMouseMove env world annolists searchAnnolists hov windowId point
          = (if (lodashXor hov
                ((annotationsAtPoint env world annolists searchAnnolists canvas point).map
                  (fun a => a.id))).length > 0
            then some (windowId,
              (annotationsAtPoint env world annolists searchAnnolists canvas point).map
                (fun a => a.id))
            else none) := by
      intro hov
      unfold onCanvasMouseMove
      rw [hcanvas]
    by_cases hxor : lodashXor hovered
        ((annotationsAtPoint env world annolists searchAnnolists canvas point).map
          (fun a => a.id)) = []
    · have hafter : hoveredIdsAfterMouseMove env world annolists searchAnnolists hovered
          windowId point = hovered := by
        unfold hoveredIdsAfterMouseMove
        rw [hunfold, if_neg (by simp [hxor])]
      rw [hafter, hunfold2, if_neg (by simp [hxor])]
    · have hafter : hoveredIdsAfterMouseMove env world annolists searchAnnolists hovered
          windowId point
          = (annotationsAtPoint env world annolists searchAnnolists canvas point).map
            (fun a => a.id) := by
        unfold hoveredIdsAfterMouseMove
        rw [hunfold, if_pos (List.length_pos.mpr hxor)]
      rw [hafter, hunfold2, if_neg (by simp [lodashXor_self])]

/-- C5 witness: at the concrete click point, moving with an empty
hovered set emits a notification (the hit set is non-empty), and the
repeated move emits nothing. -/
theorem hover_emitted_iff_changed_witness :
    ((onCanvasMouseMove exEnv exWorld exLists [] [] "w" exPoint).isSome = true
      ↔ ¬ (∀ a, a ∈ ([] : List String) ↔
            a ∈ (annotationsAtPoint exEnv exWorld exLists [] exCanvas exPoint).map
              (fun an => an.id)))
    ∧ onCanvasMouseMove exEnv exWorld exLists []
        (hoveredIdsAfterMouseMove exEnv exWorld exLists [] [] "w" exPoint) "w" exPoint
      = none :=
  hover_emitted_iff_changed exEnv exWorld exLists [] [] "w" exPoint exCanvas (by decide)

/-- C7: after any event sequence in which the last animation-start is
not yet matched by an animation-finish (the `osdUpdating` flag is
set), `componentDidUpdate` issues no `panTo` and no `zoomTo`: the
viewport reconciliation branch is unreachable while the external
viewer animates. -/
theorem noReconcileWhileAnimating (events : List OSDEvent)
    (props prevProps : ViewerProps) (viewport : ViewportSprings)
    (h : osdUpdatingAfter events = true) :
    (componentDidUpdate props prevProps (osdUpdatingAfter events) viewport).all
      (fun c => !(isViewportReconcileCommand c)) = true := by
  rw [h]
  unfold componentDidUpdate
  rw [List.all_append]
  apply Bool.and_eq_true_iff.mpr
  constructor
  · split
    · rfl
    · rfl
  · split
    · rfl
    · split
      · rfl
      · cases props.viewer with
        | none => rfl
        | some v => simp

/-- C7 witness: after a lone animation-start event the flag is set and
the command list for the minimal props contains no pan or zoom. -/
theorem noReconcileWhileAnimating_witness :
    osdUpdatingAfter [OSDEvent.animationStart] = true
      ∧ (componentDidUpdate exProps exProps (osdUpdatingAfter [OSDEvent.animationStart])
          ⟨0, 0, 1⟩).all (fun c => !(isViewportReconcileCommand c)) = true :=
  ⟨by decide,
    noReconcileWhileAnimating [OSDEvent.animationStart] exProps exProps ⟨0, 0, 1⟩ (by decide)⟩

theorem disambiguateMulti_pair (score : Nat → AnnoResource → Nat) (a b : AnnoResource)
    (hne : score 50 a ≠ score 50 b) (hle : score 50 a ≤ score 50 b) :
    disambiguateMulti score [a, b] = some a := by
  unfold disambiguateMulti
  simp only [List.map_cons, List.map_nil]
  rw [show sortByScore [(a, score 50 a), (b, score 50 b)]
      = [(a, score 50 a), (b, score 50 b)] from by
    simp only [sortByScore, List.foldr_cons, List.foldr_nil, insertByScore]
    rw [if_pos hle]]
  simp [hne]

set_option maxHeartbeats 1000000 in
theorem exScoreSmall : clickScore exEnv exWorld exCanvas exPoint 50 exAnnoSmall = 9 := by
  rw [clickScore_fragment exEnv exWorld exCanvas exPoint 50 exAnnoSmall 9 9 2 2 rfl rfl]
  decide

set_option maxHeartbeats 1000000 in
theorem exScoreLarge : clickScore exEnv exWorld exCanvas exPoint 50 exAnnoLarge = 3721 := by
  rw [clickScore_fragment exEnv exWorld exCanvas exPoint 50 exAnnoLarge 0 0 1000 1000 rfl rfl]
  decide

theorem exTwinScoresEqual (point : WPoint) (r : Nat) :
    clickScore exEnv exWorld exCanvas point r exAnnoTwinA
      = clickScore exEnv exWorld exCanvas point r exAnnoTwinB := by
  rw [clickScore_fragment exEnv exWorld exCanvas point r exAnnoTwinA 0 0 20 20 rfl rfl,
    clickScore_fragment exEnv exWorld exCanvas point r exAnnoTwinB 0 0 20 20 rfl rfl]

/-- C1, counterexample: at the concrete click (10, 10) both fixture
rectangles are hit and their radius-50 locality scores differ (9 for
the small one, 3721 for the large one), so under the claim the
highest-scoring large rectangle would be selected; the code selects
the LOW-scoring small rectangle (`sortBy` ascends and element 0 is
taken). -/
theorem clickSelection_counterexample :
    annotationsAtPoint exEnv exWorld exLists [] exCanvas exPoint
        = [exAnnoSmall, exAnnoLarge]
      ∧ clickScore exEnv exWorld exCanvas exPoint 50 exAnnoSmall = 9
      ∧ clickScore exEnv exWorld exCanvas exPoint 50 exAnnoLarge = 3721
      ∧ onCanvasClickSelected exEnv exWorld exLists [] exPoint = some exAnnoSmall
      ∧ exAnnoSmall ≠ exAnnoLarge := by
  have hcanvas : canvasAtPoint exWorld exPoint = some exCanvas := by decide
  have hannos : annotationsAtPoint exEnv exWorld exLists [] exCanvas exPoint
      = [exAnnoSmall, exAnnoLarge] := by decide
  have hsel : onCanvasClickSelected exEnv exWorld exLists [] exPoint
      = disambiguateMulti
          (fun r anno => clickScore exEnv exWorld exCanvas exPoint r anno)
          [exAnnoSmall, exAnnoLarge] := by
    unfold onCanvasClickSelected
    rw [hcanvas]
    show (match annotationsAtPoint exEnv exWorld exLists [] exCanvas exPoint with
      | [] => none
      | [a] => some a
      | a :: b :: rest =>
        disambiguateMulti
          (fun r anno => clickScore exEnv exWorld exCanvas exPoint r anno) (a :: b :: rest))
      = disambiguateMulti
          (fun r anno => clickScore exEnv exWorld exCanvas exPoint r anno)
          [exAnnoSmall, exAnnoLarge]
    rw [hannos]
  refine ⟨hannos, exScoreSmall, exScoreLarge, ?_, by decide⟩
  rw [hsel]
  apply disambiguateMulti_pair
  · show clickScore exEnv exWorld exCanvas exPoint 50 exAnnoSmall
      ≠ clickScore exEnv exWorld exCanvas exPoint 50 exAnnoLarge
    rw [exScoreSmall, exScoreLarge]
    decide
  · show clickScore exEnv exWorld exCanvas exPoint 50 exAnnoSmall
      ≤ clickScore exEnv exWorld exCanvas exPoint 50 exAnnoLarge
    rw [exScoreSmall, exScoreLarge]
    decide

/-- C1 (amended): when a click hits at least two annotations, the code
selects a hit candidate whose locality score is MINIMAL among the
candidates at the deciding radius (one of 50, 150, 500; `sortBy`
ascends and element 0 of the sort — the lowest score — is taken). -/
theorem clickSelectsMinimalScore (env : SvgEnv) (world : CanvasWorld)
    (annolists searchAnnolists : List AnnoList) (point : WPoint)
    (canvas : CanvasSpec) (annos : List AnnoResource)
    (hcanvas : canvasAtPoint world point = some canvas)
    (hannos : annotationsAtPoint env world annolists searchAnnolists canvas point = annos)
    (hlen : 2 ≤ annos.length) :
    ∃ a, onCanvasClickSelected env world annolists searchAnnolists point = some a
      ∧ a ∈ annos
      ∧ ∃ r, (r = 50 ∨ r = 150 ∨ r = 500)
        ∧ ∀ b ∈ annos, clickScore env world canvas point r a
            ≤ clickScore env world canvas point r b := by
  rcases annos with _ | ⟨a0, _ | ⟨a1, rest⟩⟩
  · simp at hlen
  · simp at hlen
  · have hsel : onCanvasClickSelected env world annolists searchAnnolists point
        = disambiguateMulti
            (fun r anno => clickScore env world canvas point r anno) (a0 :: a1 :: rest) := by
      unfold onCanvasClickSelected
      rw [hcanvas]
      show (match annotationsAtPoint env world annolists searchAnnolists canvas point with
        | [] => none
        | [a] => some a
        | a :: b :: rest =>
          disambiguateMulti
            (fun r anno => clickScore env world canvas point r anno) (a :: b :: rest))
        = disambiguateMulti
            (fun r anno => clickScore env world canvas point r anno) (a0 :: a1 :: rest)
      rw [hannos]
    rcases disambiguateMulti_min
        (fun r anno => clickScore env world canvas point r anno) (a0 :: a1 :: rest)
        (by simp) with ⟨a, hda, hmem, r, hr, hmin⟩
    exact ⟨a, by rw [hsel]; exact hda, hmem, r, hr, hmin⟩

/-- C1 (amended) witness: at the concrete click the selected
annotation exists and carries a minimal score at some escalation
radius. -/
theorem clickSelectsMinimalScore_witness :
    ∃ a, onCanvasClickSelected exEnv exWorld exLists [] exPoint = some a
      ∧ a ∈ [exAnnoSmall, exAnnoLarge]
      ∧ ∃ r, (r = 50 ∨ r = 150 ∨ r = 500)
        ∧ ∀ b ∈ [exAnnoSmall, exAnnoLarge],
            clickScore exEnv exWorld exCanvas exPoint r a
              ≤ clickScore exEnv exWorld exCanvas exPoint r b :=
  clickSelectsMinimalScore exEnv exWorld exLists [] exPoint exCanvas
    [exAnnoSmall, exAnnoLarge] (by decide) (by decide) (by decide)

/-- C6: when every escalation radius (50, 150, 500) gives identical
locality scores across all the hit candidates, the code selects the
first candidate in original list order; being an equation of a pure
function, the same inputs always yield this same selection. -/
theorem tieSelectsFirst (env : SvgEnv) (world : CanvasWorld)
    (annolists searchAnnolists : List AnnoList) (point : WPoint)
    (canvas : CanvasSpec) (a b : AnnoResource) (rest : List AnnoResource)
    (hcanvas : canvasAtPoint world point = some canvas)
    (hannos : annotationsAtPoint env world annolists searchAnnolists canvas point
      = a :: b :: rest)
    (hconst : ∀ r, (r = 50 ∨ r = 150 ∨ r = 500) →
      ∀ p ∈ a :: b :: rest, ∀ q ∈ a :: b :: rest,
        clickScore env world canvas point r p = clickScore env world canvas point r q) :
    onCanvasClickSelected env world annolists searchAnnolists point = some a := by
  have hsel : onCanvasClickSelected env world annolists searchAnnolists point
      = disambiguateMulti
          (fun r anno => clickScore env world canvas point r anno) (a :: b :: rest) := by
    unfold onCanvasClickSelected
    rw [hcanvas]
    show (match annotationsAtPoint env world annolists searchAnnolists canvas point with
      | [] => none
      | [a] => some a
      | a :: b :: rest =>
        disambiguateMulti
          (fun r anno => clickScore env world canvas point r anno) (a :: b :: rest))
      = disambiguateMulti
          (fun r anno => clickScore env world canvas point r anno) (a :: b :: rest)
    rw [hannos]
  rw [hsel]
  exact disambiguateMulti_const _ a b rest hconst

/-- C6 witness: two identical twin rectangles tie at every radius and
the first of the two is selected. -/
theorem tieSelectsFirst_witness :
    onCanvasClickSelected exEnv exWorld exTwinLists [] ⟨5, 5⟩ = some exAnnoTwinA :=
  tieSelectsFirst exEnv exWorld exTwinLists [] ⟨5, 5⟩ exCanvas exAnnoTwinA exAnnoTwinB []
    (by decide) (by decide)
    (by
      intro r hr p hp q hq
      simp only [List.mem_cons, List.mem_singleton, List.not_mem_nil, or_false] at hp hq
      rcases hp with hp | hp <;> rcases hq with hq | hq <;> subst hp <;> subst hq
      · rfl
      · exact exTwinScoresEqual ⟨5, 5⟩ r
      · exact (exTwinScoresEqual ⟨5, 5⟩ r).symm
      · rfl)

/-- C3: the thumbnail request with both constraints 100 on the
level-2 service over a 1000×2000 original is floored to the best-fit
box 120×120: URL size parameter `!120,120` and resolved dimensions
60×120, which preserve the original 1:2 aspect ratio. -/
theorem thumbnailMinimumFloor :
    getThumbnail (IIIFNode.withThumbnail "xyz" (IIIFNode.image exThumbLevel2))
        { maxWidth := some 100, maxHeight := some 100 }
      = some { url := "http://example.com/full/!120,120/0/default.jpg",
               width := some 60, height := some 120 }
      ∧ (60 : Int) * 2000 = 120 * 1000 :=
  ⟨by decide, by decide⟩

/-- C4, counterexample: the level-0 fixture of the test suite resolves
to the image resource's own id `arbitrary-url`, not to the service's
base identifier `http://example.com` as the claim states. -/
theorem thumbnailLevel0_counterexample :
    getThumbnail (IIIFNode.withThumbnail "xyz" (IIIFNode.image exThumbLevel0))
        { maxWidth := some 50, maxHeight := none }
      = some { url := "arbitrary-url", width := none, height := none }
      ∧ "arbitrary-url" ≠ "http://example.com" :=
  ⟨by decide, by decide⟩

/-- C4 (amended): a leaf with a level-0 IIIF service ignores every
size constraint and resolves to the image resource's own id with no
resolved dimensions. -/
theorem thumbnailLevel0_returnsResourceId (img : IIIFImage) (s : IIIFService)
    (c : ThumbConstraints) (hs : img.service = some s) (hlevel : s.level = 0) :
    getThumbnail (IIIFNode.image img) c
      = some { url := img.id, width := none, height := none } := by
  simp [getThumbnail, getThumbnailImage, hs, hlevel]

/-- C4 (amended) witness: the level-0 fixture with a maxWidth
constraint resolves to its own id with no dimensions. -/
theorem thumbnailLevel0_returnsResourceId_witness :
    getThumbnail (IIIFNode.image exThumbLevel0) { maxWidth := some 50, maxHeight := none }
      = some { url := "arbitrary-url", width := none, height := none } :=
  thumbnailLevel0_returnsResourceId exThumbLevel0 ⟨"http://example.com", 0⟩
    ⟨some 50, none⟩ rfl rfl
